import Mathlib

/-!
Shallow embedding of `app.py` (dark-indicator API).

The engine consumes already-fetched record batches (the HTTP fetch layer is a
collaborator and is represented by the batch inputs), builds the `raw_data`
mapping, and derives the `calculated_indicators` dictionary.  Machine floats
are modelled by exact rationals; pandas `NaN` (a column present in a frame but
missing in a row) is modelled by an explicit `PyNum.nan` constructor; Python
string formatting (`f"{x:.1f}%"` and friends) is abstracted into `Leaf`
constructors that keep the exact numeric payload, so equal model values render
to equal Python strings.  Fallible Python code (KeyError on an empty frame,
ZeroDivisionError) is modelled with `Except String`.
-/

namespace DarkIndicator

/-- Calendar date as carried by `pandas.Timestamp` after `pd.to_datetime`. -/
structure Date where
  year : Int
  month : Nat
  day : Nat
deriving DecidableEq

/-- Lexicographic (chronological) comparison of dates. -/
def dateLe (a b : Date) : Bool :=
  decide (a.year < b.year) ||
    (a.year == b.year &&
      (decide (a.month < b.month) || (a.month == b.month && decide (a.day ≤ b.day))))

/-- Binary maximum used to model `Series.max()` over datetimes. -/
def maxDate (a b : Date) : Date := if dateLe a b then b else a

/-- `df['date'].max()` over a nonempty date column (app.py lines 308, 440). -/
def listMaxDate (d : Date) (ds : List Date) : Date := ds.foldl maxDate d

/-- Gregorian leap-year rule (what `pandas.Timestamp.replace` validates against). -/
def isLeap (y : Int) : Bool := y % 4 == 0 && (y % 100 != 0 || y % 400 == 0)

/-- Number of days in a month (for months 1..12). -/
def daysInMonth (y : Int) (m : Nat) : Nat :=
  if m = 2 then (if isLeap y then 29 else 28)
  else if m = 4 ∨ m = 6 ∨ m = 9 ∨ m = 11 then 30
  else 31

/-- Whether `(y, m, d)` is a real calendar date. -/
def isValidDate (y : Int) (m d : Nat) : Bool :=
  decide (1 ≤ m) && decide (m ≤ 12) && decide (1 ≤ d) && decide (d ≤ daysInMonth y m)

/-- `latest_date.replace(year=latest_year-1)` guarded by `try`, with the bare
`except` falling back to `replace(year=latest_year-1, month=6, day=30)`
(app.py lines 313-317 and 443-446).  `Timestamp.replace` raises exactly when
the substituted date is not a real calendar date (Feb 29 into a non-leap
year); the fallback June 30 is always valid, so this function is total. -/
def priorYearTarget (d : Date) : Date :=
  if isValidDate (d.year - 1) d.month d.day then ⟨d.year - 1, d.month, d.day⟩
  else ⟨d.year - 1, 6, 30⟩

/-- Zero-padded two-digit rendering of a month or day. -/
def pad2 (n : Nat) : String := if n < 10 then "0" ++ toString n else toString n

/-- `strftime('%Y-%m-%d')`. -/
def fmtYMD (d : Date) : String :=
  toString d.year ++ "-" ++ pad2 d.month ++ "-" ++ pad2 d.day

/-- `strftime('%Y-%m')`. -/
def fmtYM (d : Date) : String := toString d.year ++ "-" ++ pad2 d.month

/-- Numeric value as produced by pandas/numpy arithmetic: a finite number;
`NaN` (a row-level hole in an existing column, or `0/0`); or a signed
infinity — numpy true-division of a non-zero value by zero does not raise,
it emits a `RuntimeWarning` (silenced by `warnings.filterwarnings('ignore')`,
app.py line 11) and returns `inf` / `-inf`. -/
inductive PyNum
| q (x : ℚ)
| nan
| inf
| ninf
deriving DecidableEq

/-- Python `value > 0` (`NaN > 0` is `False`, `inf > 0` is `True`). -/
def pyGTzero : PyNum → Bool
| .q x => decide (0 < x)
| .nan => false
| .inf => true
| .ninf => false

/-- numpy true-division of two real values: division by zero silently yields
`inf`, `-inf` or `NaN` depending on the numerator's sign. -/
def npDiv (a b : ℚ) : PyNum :=
  if b = 0 then (if 0 < a then .inf else if a < 0 then .ninf else .nan)
  else .q (a / b)

/-- Division where either operand may be `NaN` (a pandas hole propagates);
infinite operands do not arise at the modelled call sites. -/
def pyDiv : PyNum → PyNum → PyNum
| .q x, .q y => npDiv x y
| _, _ => .nan

/-- Multiplication by a constant, propagating `NaN` and signed infinities
(both call sites multiply by the positive constant 100). -/
def pyMulC : PyNum → ℚ → PyNum
| .q x, c => .q (x * c)
| .nan, _ => .nan
| .inf, c => if 0 < c then .inf else if c < 0 then .ninf else .nan
| .ninf, c => if 0 < c then .ninf else if c < 0 then .inf else .nan

/-- One scalar value stored in the indicator dictionaries.  String formatting
is abstracted into constructors that keep the exact numeric payload:
`fmtPct x p` stands for Python `f"{x:.pf}%"`, `fmtNum x p` for `f"{x:.pf}"`,
`fmtComma x` for `f"{x:,}張"`, `moneyA x` for the conditional
`f"{x/1e8:.2f}億" if abs(x) >= 1e8 else f"{x:,.0f}"`, `moneyB x` for
`f"{x/1e8:.1f}億"`, and `moneyC x` for `f"{x/1e8:.2f}億"`. -/
inductive Leaf
| num (x : PyNum)
| s (v : String)
| noneV
| fmtPct (x : PyNum) (prec : Nat)
| fmtNum (x : PyNum) (prec : Nat)
| fmtComma (x : PyNum)
| moneyA (x : PyNum)
| moneyB (x : PyNum)
| moneyC (x : PyNum)
deriving DecidableEq

/-- A value of the top-level `indicators` dictionary: a scalar, a sub-dict,
or a two-level sub-dict (the YoY summary and the no-data section). -/
inductive Entry
| leaf (l : Leaf)
| map (m : List (String × Leaf))
| map2 (m : List (String × List (String × Leaf)))
deriving DecidableEq

/-- One row of `TaiwanStockFinancialStatements` / `TaiwanStockBalanceSheet`
after `pd.to_datetime` on the date column. -/
structure FinRecord where
  date : Date
  origin_name : String
  value : ℚ
deriving DecidableEq

/-- One row of `TaiwanStockMonthRevenue` after date parsing. -/
structure RevRecord where
  date : Date
  revenue : ℚ
deriving DecidableEq

/-- One row of `TaiwanStockCashFlowsStatement`; the cash-flow section never
parses its dates, so they stay ISO strings (compared lexicographically). -/
structure CFRecord where
  date : String
  origin_name : String
  value : ℚ
deriving DecidableEq

/-- One row of `TaiwanStockMarginPurchaseShortSale`; only the two fields the
calculator reads are kept.  `none` means the key is absent from that row's
JSON object. -/
structure MarginRec where
  balance : Option ℚ
  limit : Option ℚ
deriving DecidableEq

/-- One row of `TaiwanStockPER`. -/
structure PerRec where
  PER : Option ℚ
  PBR : Option ℚ
  dividend_yield : Option ℚ
deriving DecidableEq

/-- One row of `TaiwanStockInfo`; `.get` on a plain dict yields `None` for a
missing key, hence the `Option`s. -/
structure BasicInfo where
  stock_id : Option String
  stock_name : Option String
  industry_category : Option String
  type : Option String
deriving DecidableEq

/-- The `result["raw_data"]` mapping handed to `_calculate_basic_indicators`. -/
structure RawData where
  basic_info : Option BasicInfo
  financial_statement : Option (List FinRecord)
  monthly_revenue : Option (List RevRecord)
  cashflow : Option (List CFRecord)
  balance_sheet : Option (List FinRecord)
  margin_trading : Option (List MarginRec)
  daily_price : Option (List String)
  day_trading : Option (List String)
  per_pbr : Option (List PerRec)
deriving DecidableEq

/-- Value of the first record of `latest` rows carrying a given
`origin_name` — Python `df[df['origin_name'] == o]['value'].iloc[0]` guarded
by the `not .empty` checks; `none` means the filter came back empty. -/
def firstValue (l : List FinRecord) (origin : String) : Option ℚ :=
  ((l.filter (fun r => r.origin_name == origin)).head?).map (·.value)

/-- Section 1 of `_calculate_basic_indicators` (app.py 292-300): copy the
profile record's fields, `dict.get` yielding `None` for a missing key. -/
def optLeaf : Option String → Leaf
| some s => .s s
| none => .noneV

def section1F (raw : RawData) : List (String × Entry) :=
  match raw.basic_info with
  | none => []
  | some b =>
    [("基本資料", Entry.map
      [("股票代號", optLeaf b.stock_id), ("股票名稱", optLeaf b.stock_name),
       ("產業別", optLeaf b.industry_category), ("股票類型", optLeaf b.type)])]

/-- `financial_mapping` (app.py 325-334). -/
def financialMapping : List (String × String) :=
  [("營業收入", "最新季營收"), ("營業利益（損失）", "最新季營業利益"),
   ("稅前淨利（淨損）", "最新季稅前淨利"), ("本期淨利（淨損）", "最新季淨利"),
   ("營業外收入及支出", "營業外收支"), ("基本每股盈餘（元）", "最新季EPS"),
   ("營業成本", "營業成本"), ("營業毛利（毛損）", "營業毛利")]

/-- One iteration of the per-field loop shared by the income-statement
section (app.py 339-361, money formatter `moneyA`) and the balance-sheet
section (466-493, formatter `moneyC`): current value, its money rendering,
then the YoY entry — the exact growth formula when the prior value exists and
is non-zero, the sentinel `"去年同期為0"` when it exists and is zero, and the
sentinel `"無去年同期資料"` when the prior-period row is absent. -/
def stmtFieldEntries (fmt : PyNum → Leaf) (latestF lastF : List FinRecord)
    (pair : String × String) : List (String × Leaf) :=
  match (latestF.filter (fun r => r.origin_name == pair.1)).head? with
  | none => [(pair.2, .s "無資料")]
  | some c =>
    [(pair.2, .num (.q c.value)), (pair.2 ++ "_億元", fmt (.q c.value))] ++
    (match (lastF.filter (fun r => r.origin_name == pair.1)).head? with
     | none => [(pair.2 ++ "_YoY成長率", .s "無去年同期資料")]
     | some p =>
       if p.value = 0 then [(pair.2 ++ "_YoY成長率", .s "去年同期為0")]
       else
         [(pair.2 ++ "_YoY成長率", .fmtPct (.q ((c.value - p.value) / |p.value| * 100)) 1),
          (pair.2 ++ "_去年同期", fmt (.q p.value))])

/-- Margin ratios of the income-statement section (app.py 365-378): emitted
only when a revenue row exists among the latest records and its value is
non-zero, and the respective numerator row exists. -/
def finRatioEntries (latestF : List FinRecord) : List (String × Entry) :=
  match firstValue latestF "營業收入" with
  | none => []
  | some rv =>
    if rv = 0 then []
    else
      (match firstValue latestF "營業利益（損失）" with
       | some op => [("營業利益率%", Entry.leaf (.fmtPct (.q (op / rv * 100)) 1))]
       | none => []) ++
      (match firstValue latestF "營業毛利（毛損）" with
       | some g => [("毛利率%", Entry.leaf (.fmtPct (.q (g / rv * 100)) 1))]
       | none => [])

/-- Section 2 (app.py 302-378).  An empty record list would make
`financial_df['date']` raise `KeyError('date')` before anything is written;
rendered here as `.error` with Python's `str(e)`. -/
def section2F (raw : RawData) : Except String (List (String × Entry)) :=
  match raw.financial_statement with
  | none => .ok []
  | some [] => .error "\x27date\x27"
  | some (r :: rs) =>
    let L := listMaxDate r.date (rs.map (·.date))
    let latestF := (r :: rs).filter (fun x => x.date == L)
    let lastF := (r :: rs).filter (fun x => x.date == priorYearTarget L)
    let finInds := ("最新財報日期", Leaf.s (fmtYMD L)) ::
      (financialMapping.map (stmtFieldEntries Leaf.moneyA latestF lastF)).flatten
    .ok ([("損益表指標", Entry.map finInds)] ++ finRatioEntries latestF)

/-- The prior-year filter of the monthly-revenue section (app.py 392-395):
match by (year − 1, same month), not by exact date. -/
def monthlyPriorMatches (l : List RevRecord) (latest : RevRecord) : List RevRecord :=
  l.filter (fun r =>
    r.date.year == latest.date.year - 1 && r.date.month == latest.date.month)

/-- Section 3 (app.py 380-407).  `latest_revenue = revenue_df.iloc[-1]` is the
last row in input order; the YoY division at line 400 is written
`(current - prior) / prior * 100` with no zero guard and no `abs`.  The
operands are numpy int64 scalars off the `revenue` column, so a zero
prior-year revenue does not raise: numpy true-division silently yields
`inf` / `-inf` / `NaN` (the `RuntimeWarning` is suppressed by app.py line
11), and `f"{...:.1f}%"` renders it, e.g. as `"inf%"`.  This section never
faults. -/
def section3F (raw : RawData) : List (String × Entry) :=
  match raw.monthly_revenue with
  | none => []
  | some [] => []
  | some (r :: rs) =>
    let L := (r :: rs).getLastD r
    match monthlyPriorMatches (r :: rs) L with
    | [] => []
    | p :: _ =>
      [("月營收指標", Entry.map
        [("最新月份", .s (fmtYM L.date)),
         ("最新月營收", .moneyB (.q L.revenue)),
         ("去年同月營收", .moneyB (.q p.revenue)),
         ("營收年增率",
           .fmtPct (pyMulC (npDiv (L.revenue - p.revenue) p.revenue) 100) 1)])]

/-- Lexicographic max on ISO date strings, modelling `cf_df['date'].max()`. -/
def strMax (a b : String) : String := if a < b then b else a

/-- `cf_mapping` (app.py 415-420). -/
def cfMapping : List (String × String) :=
  [("營業活動之淨現金流入（流出）", "A-營業活動現金流"),
   ("投資活動之淨現金流入（流出）", "B-投資活動現金流"),
   ("籌資活動之淨現金流入（流出）", "C-融資活動現金流"),
   ("期末現金及約當現金餘額", "E-期末現金餘額")]

/-- Section 4 (app.py 409-432); dates stay strings here. -/
def section4F (raw : RawData) : Except String (List (String × Entry)) :=
  match raw.cashflow with
  | none => .ok []
  | some [] => .error "\x27date\x27"
  | some (r :: rs) =>
    let L := (rs.map (·.date)).foldl strMax r.date
    let latestCF := (r :: rs).filter (fun x => x.date == L)
    let cfInds := ("最新現金流日期", Leaf.s L) ::
      (cfMapping.map (fun pair =>
        match (latestCF.filter (fun x => x.origin_name == pair.1)).head? with
        | none => [(pair.2, Leaf.s "無資料")]
        | some c =>
          [(pair.2, Leaf.num (.q c.value)), (pair.2 ++ "_億元", Leaf.moneyC (.q c.value))])).flatten
    .ok [("現金流指標", Entry.map cfInds)]

/-- `bs_mapping` (app.py 453-461). -/
def bsMapping : List (String × String) :=
  [("資產總額", "總資產"), ("負債總額", "總負債"), ("流動資產合計", "流動資產"),
   ("流動負債合計", "流動負債"), ("存貨", "存貨"), ("應收帳款淨額", "應收帳款"),
   ("普通股股本", "股本")]

/-- `負債比率` (app.py 496-498): requires both keys in `bs_values` and a
non-zero total-assets denominator. -/
def debtRatioEntry (latestBS : List FinRecord) : List (String × Leaf) :=
  match firstValue latestBS "負債總額", firstValue latestBS "資產總額" with
  | some l, some a => if a ≠ 0 then [("負債比率", .fmtPct (.q (l / a * 100)) 1)] else []
  | _, _ => []

/-- `流動比率` (app.py 500-502). -/
def currentRatioEntry (latestBS : List FinRecord) : List (String × Leaf) :=
  match firstValue latestBS "流動資產合計", firstValue latestBS "流動負債合計" with
  | some ca, some cl => if cl ≠ 0 then [("流動比率", .fmtNum (.q (ca / cl)) 2)] else []
  | _, _ => []

/-- `速動比率` (app.py 504-506). -/
def quickRatioEntry (latestBS : List FinRecord) : List (String × Leaf) :=
  match firstValue latestBS "流動資產合計", firstValue latestBS "存貨",
        firstValue latestBS "流動負債合計" with
  | some ca, some inv, some cl =>
    if cl ≠ 0 then [("速動比率", .fmtNum (.q ((ca - inv) / cl)) 2)] else []
  | _, _, _ => []

def bsRatioEntries (latestBS : List FinRecord) : List (String × Leaf) :=
  debtRatioEntry latestBS ++ (currentRatioEntry latestBS ++ quickRatioEntry latestBS)

/-- Section 5 (app.py 434-508): same per-field loop as section 2 but with the
unconditional `.2f`億 formatter, followed by the three balance-sheet ratios. -/
def section5F (raw : RawData) : Except String (List (String × Entry)) :=
  match raw.balance_sheet with
  | none => .ok []
  | some [] => .error "\x27date\x27"
  | some (r :: rs) =>
    let L := listMaxDate r.date (rs.map (·.date))
    let latestBS := (r :: rs).filter (fun x => x.date == L)
    let lastBS := (r :: rs).filter (fun x => x.date == priorYearTarget L)
    let bsInds := ("最新資產負債表日期", Leaf.s (fmtYMD L)) ::
      ((bsMapping.map (stmtFieldEntries Leaf.moneyC latestBS lastBS)).flatten ++
       bsRatioEntries latestBS)
    .ok [("資產負債指標", Entry.map bsInds)]

/-- Whether the margin frame has a `MarginPurchaseTodayBalance` column: a
`pd.DataFrame` built from a list of JSON objects has a column iff some object
carries the key; rows without it hold `NaN`. -/
def hasBalCol (l : List MarginRec) : Bool := l.any (·.balance.isSome)

def hasLimCol (l : List MarginRec) : Bool := l.any (·.limit.isSome)

/-- `margin_df.iloc[-1].get('MarginPurchaseTodayBalance', 0)` (app.py 518):
the default `0` applies only when the column is absent from the whole frame;
a row-level hole in an existing column reads back as `NaN`. -/
def pdGetBal (l : List MarginRec) (latest : MarginRec) : PyNum :=
  if hasBalCol l then (match latest.balance with | some v => .q v | none => .nan)
  else .q 0

/-- `margin_df.iloc[-1].get('MarginPurchaseLimit', 0)` (app.py 519). -/
def pdGetLim (l : List MarginRec) (latest : MarginRec) : PyNum :=
  if hasLimCol l then (match latest.limit with | some v => .q v | none => .nan)
  else .q 0

/-- `融資使用率` (app.py 524): the percentage when the fetched limit passes
`> 0`, the marker `"無法計算"` otherwise. -/
def usageLeaf (l : List MarginRec) (latest : MarginRec) : Leaf :=
  let lim := pdGetLim l latest
  if pyGTzero lim then .fmtPct (pyMulC (pyDiv (pdGetBal l latest) lim) 100) 2
  else .s "無法計算"

/-- Margin part of section 6 (app.py 513-525). -/
def marginEntries (l : List MarginRec) : List (String × Leaf) :=
  match l with
  | [] => []
  | r :: rs =>
    let latest := (r :: rs).getLastD r
    [("融資餘額", .fmtComma (pdGetBal (r :: rs) latest)),
     ("融資限額", .fmtComma (pdGetLim (r :: rs) latest)),
     ("融資使用率", usageLeaf (r :: rs) latest)]

/-- `latest_per.get(key, '無資料')` (app.py 533-534) with pandas column
semantics: string default only when the column is absent from the frame. -/
def perGet (l : List PerRec) (latest : PerRec) (proj : PerRec → Option ℚ) : Leaf :=
  if l.any (fun r => (proj r).isSome) then
    (match proj latest with | some v => .num (.q v) | none => .num .nan)
  else .s "無資料"

/-- `殖利率` (app.py 535): `f"{get('dividend_yield', 0):.2f}%"` when
`get('dividend_yield')` is truthy, else `'無資料'`.  A `NaN` is truthy in
Python, `None` and `0` are falsy. -/
def dyLeaf (l : List PerRec) (latest : PerRec) : Leaf :=
  let colPresent := l.any (·.dividend_yield.isSome)
  let truthy :=
    if colPresent then
      (match latest.dividend_yield with | some v => decide (v ≠ 0) | none => true)
    else false
  if truthy then
    .fmtPct (if colPresent then
               (match latest.dividend_yield with | some v => .q v | none => .nan)
             else .q 0) 2
  else .s "無資料"

/-- PER part of section 6 (app.py 527-536). -/
def perEntries (l : List PerRec) : List (String × Leaf) :=
  match l with
  | [] => []
  | r :: rs =>
    let latest := (r :: rs).getLastD r
    [("本益比", perGet (r :: rs) latest (·.PER)),
     ("股價淨值比", perGet (r :: rs) latest (·.PBR)),
     ("殖利率", dyLeaf (r :: rs) latest)]

/-- Section 6 (app.py 510-539): the `交易指標` dict appears only when at
least one of the two sub-blocks produced entries. -/
def section6F (raw : RawData) : List (String × Entry) :=
  let t := marginEntries (raw.margin_trading.getD []) ++ perEntries (raw.per_pbr.getD [])
  if t.isEmpty then [] else [("交易指標", Entry.map t)]

/-- `sub.get(key, "無資料")` over an already-built sub-dict. -/
def getLeafD (m : List (String × Leaf)) (k : String) : Leaf :=
  (m.lookup k).getD (.s "無資料")

/-- Section 7 (app.py 541-562): the YoY summary, read back out of the
`indicators` accumulated so far. -/
def section7F (acc : List (String × Entry)) : List (String × Entry) :=
  let profit :=
    match acc.lookup "損益表指標" with
    | some (Entry.map m) =>
      [("獲利成長分析",
        [("淨利YoY", getLeafD m "最新季淨利_YoY成長率"),
         ("EPS_YoY", getLeafD m "最新季EPS_YoY成長率"),
         ("營收YoY", getLeafD m "最新季營收_YoY成長率"),
         ("營業利益YoY", getLeafD m "最新季營業利益_YoY成長率")])]
    | _ => []
  let assets :=
    match acc.lookup "資產負債指標" with
    | some (Entry.map m) =>
      [("資產成長分析",
        [("應收帳款YoY", getLeafD m "應收帳款_YoY成長率"),
         ("存貨YoY", getLeafD m "存貨_YoY成長率"),
         ("總資產YoY", getLeafD m "總資產_YoY成長率")])]
    | _ => []
  let y := profit ++ assets
  if y.isEmpty then [] else [("YoY成長率總結", Entry.map2 y)]

/-- Section 8 (app.py 564-579): constant no-data markers. -/
def finMindSection : List (String × Entry) :=
  [("FinMind無資料項目", Entry.map2
    [("籌碼資料",
      [("超過1千張增減(%)", .s "需公開資訊觀測站"),
       ("全體董監增減張數", .s "需公開資訊觀測站"),
       ("全體董監質押(%)", .s "需公開資訊觀測站"),
       ("董監持股比例", .s "需公開資訊觀測站"),
       ("10%大股東變動(近一年)", .s "需公開資訊觀測站"),
       ("10%大股東變動(最新月份)", .s "需公開資訊觀測站"),
       ("10%大股東近12個月增減變動次數", .s "需公開資訊觀測站")]),
     ("特殊事件",
      [("庫藏股次數", .s "需重大訊息公告"),
       ("可轉債次數", .s "需重大訊息公告")])])]

/-- The `except` branch of `_calculate_basic_indicators` (app.py 581-583):
record `str(e)` under `計算錯誤` in whatever part of the dict was already
built, and return that dict. -/
def calcErrEntry (e : String) : List (String × Entry) :=
  [("計算錯誤", Entry.leaf (.s e))]

/-- `_calculate_basic_indicators` (app.py 285-585): the numbered sections run
in order inside one `try`; the first exception jumps to the `except`, so every
section finished before the fault is kept, the fault is stored as a string under
`計算錯誤`, and every later section is absent.  The faultable operations are
the `df['date']` reads of sections 2, 4 and 5 on an empty record list
(`pd.DataFrame([])` has no columns, so the read raises `KeyError('date')`);
sections 1, 3 and 6-8 are total. -/
def calculateBasicIndicators (raw : RawData) : List (String × Entry) :=
  let m1 := section1F raw
  match section2F raw with
  | .error e => m1 ++ calcErrEntry e
  | .ok m2 =>
    let m3 := section3F raw
    match section4F raw with
    | .error e => m1 ++ m2 ++ m3 ++ calcErrEntry e
    | .ok m4 =>
      match section5F raw with
      | .error e => m1 ++ m2 ++ m3 ++ m4 ++ calcErrEntry e
      | .ok m5 =>
        let acc := m1 ++ m2 ++ m3 ++ m4 ++ m5 ++ section6F raw
        acc ++ section7F acc ++ finMindSection

/-- One per-dataset batch as returned by `fetch_data`: `none` for an API
failure or an empty payload (`fetch_data` returns data only when it is
truthy), `some` for a returned record list. -/
structure Batches where
  basic : Option (List BasicInfo)
  financial : Option (List FinRecord)
  monthly : Option (List RevRecord)
  cashflow : Option (List CFRecord)
  balance : Option (List FinRecord)
  margin : Option (List MarginRec)
  daily : Option (List String)
  daytrading : Option (List String)
  per : Option (List PerRec)
deriving DecidableEq

/-- Python truthiness of an optional list (`if financial_data:`): an empty
list behaves like `None`. -/
def truthy (o : Option (List α)) : Option (List α) :=
  match o with
  | some [] => none
  | x => x

/-- The records of `basic_data` whose `stock_id` equals the requested code
(app.py 187). -/
def stockMatches (code : String) (l : List BasicInfo) : List BasicInfo :=
  l.filter (fun r => r.stock_id == some code)

/-- The `raw_data` mapping built by `collect_all_data` (app.py 183-266). -/
def buildRawData (code : String) (b : Batches) : RawData where
  basic_info :=
    match truthy b.basic with
    | some l => (stockMatches code l).head?
    | none => none
  financial_statement := truthy b.financial
  monthly_revenue := truthy b.monthly
  cashflow := truthy b.cashflow
  balance_sheet := truthy b.balance
  margin_trading := truthy b.margin
  daily_price := truthy b.daily
  day_trading := truthy b.daytrading
  per_pbr := truthy b.per

/-- `"可用 (n筆)"` / `"無資料"` availability text for a plain dataset. -/
def availText (o : Option (List α)) : String :=
  match truthy o with
  | some l => "可用 (" ++ toString l.length ++ "筆)"
  | none => "無資料"

/-- `result["data_availability"]` in insertion order (app.py 183-270). -/
def availabilityList (code : String) (b : Batches) : List (String × String) :=
  [("基本資料區",
    match truthy b.basic with
    | some l => if (stockMatches code l).isEmpty then "找不到該股票" else "可用"
    | none => "API錯誤"),
   ("損益表資料", availText b.financial),
   ("月營收資料", availText b.monthly),
   ("現金流量表", availText b.cashflow),
   ("資產負債表", availText b.balance),
   ("融資融券", availText b.margin),
   ("日股價資料", availText b.daily),
   ("當沖資料", availText b.daytrading),
   ("本益比資料", availText b.per),
   ("籌碼資料", "FinMind無資料 - 需公開資訊觀測站"),
   ("特殊事件", "FinMind無資料 - 需重大訊息")]

/-- The success dictionary returned by `collect_all_data` (app.py 174-275).
`timestamp` carries `datetime.now().isoformat()`, made an explicit input of
the embedding.  Given fully materialized batches nothing inside the `try` can
raise (the calculator catches its own faults), so `success` is always `True`
and the failure dictionary of lines 277-283 is unreachable. -/
structure CollectResult where
  success : Bool
  stock_code : String
  timestamp : String
  data_availability : List (String × String)
  raw_data : RawData
  calculated_indicators : List (String × Entry)
deriving DecidableEq

/-- `collect_all_data` (app.py 171-283) over already-fetched batches. -/
def collectAllData (stockCode now : String) (b : Batches) : CollectResult where
  success := true
  stock_code := stockCode
  timestamp := now
  data_availability := availabilityList stockCode b
  raw_data := buildRawData stockCode b
  calculated_indicators := calculateBasicIndicators (buildRawData stockCode b)

/-- Body of an HTTP response of the two data routes; the AI-oriented JSON
reshaping of `/raw-data` (presentation only, spec §6 excludes it) is elided:
the payload constructor carries the underlying collect result. -/
inductive RouteBody
| badRequest (success : Bool) (error : String)
| payload (r : CollectResult)
deriving DecidableEq

/-- `/dark-indicators/<stock_code>` (app.py 606-618): codes shorter than 4
characters are rejected with HTTP 400 before `collect_all_data` runs. -/
def getDarkIndicators (stockCode now : String) (b : Batches) : Nat × RouteBody :=
  if stockCode = "" ∨ stockCode.length < 4 then
    (400, .badRequest false "無效的股票代碼")
  else
    let result := collectAllData stockCode now b
    if result.success then (200, .payload result) else (500, .payload result)

/-- `/raw-data/<stock_code>` (app.py 620-721): same length gate before any
collection. -/
def getRawData (stockCode now : String) (b : Batches) : Nat × RouteBody :=
  if stockCode = "" ∨ stockCode.length < 4 then
    (400, .badRequest false "無效的股票代碼")
  else
    let allData := collectAllData stockCode now b
    if allData.success = false then (500, .payload allData)
    else (200, .payload allData)

/-- Modelled from the spec: the repository's source contains no Warning Rule
Engine and no Risk Scorer (spec §4.4-§4.5 describe them, but no code under
src/ computes a warning ratio or a risk level).  Per spec §4.5:
`warning_ratio = triggered_count / total_evaluable × 100`, and `0` when
`total_evaluable == 0`. -/
def warningRatio (triggered total : Nat) : ℚ :=
  if total = 0 then 0 else (triggered : ℚ) / (total : ℚ) * 100

/-- Modelled from the spec (§4.5): bucket the warning ratio, each bucket
inclusive on its lower bound. -/
def riskLevel (r : ℚ) : String :=
  if 40 ≤ r then "high" else if 20 ≤ r then "medium" else "low"

/-- Concrete monthly-revenue batch whose prior-year July value is zero. -/
def rawC1 : RawData where
  basic_info := none
  financial_statement := none
  monthly_revenue := some [⟨⟨2023, 7, 10⟩, 0⟩, ⟨⟨2024, 7, 10⟩, 250⟩]
  cashflow := none
  balance_sheet := none
  margin_trading := none
  daily_price := none
  day_trading := none
  per_pbr := none

/-- Batches where the profile dataset answered but holds a different stock. -/
def batchesC3 : Batches where
  basic := some [⟨some "2330", some "台積電", some "半導體", some "twse"⟩]
  financial := none
  monthly := none
  cashflow := none
  balance := none
  margin := none
  daily := none
  daytrading := none
  per := none

/-- Completely empty batches (every fetch failed). -/
def emptyBatches : Batches where
  basic := none
  financial := none
  monthly := none
  cashflow := none
  balance := none
  margin := none
  daily := none
  daytrading := none
  per := none

/-- Margin batch whose latest row lacks the balance key while an earlier row
has it, so the balance column exists and the latest read yields `NaN`. -/
def raggedMargin : List MarginRec := [⟨some 5, some 100⟩, ⟨none, some 100⟩]

/-- A raw-data mapping whose financial-statement key holds an empty record
list.  `pd.DataFrame([])` has no columns, so `financial_df['date']` raises
`KeyError('date')` — a real fault of `_calculate_basic_indicators` when it
is invoked on such a mapping (the pipeline's truthiness guards keep empty
lists out of `raw_data`, so this exercises the calculator directly).  The
profile entry before the fault survives; the cash-flow data after it is
dropped. -/
def rawC9 : RawData where
  basic_info := some ⟨some "8086", some "宏捷科", some "半導體", some "twse"⟩
  financial_statement := some []
  monthly_revenue := none
  cashflow := some [⟨"2024-06-30", "營業活動之淨現金流入（流出）", 12⟩]
  balance_sheet := none
  margin_trading := none
  daily_price := none
  day_trading := none
  per_pbr := none

end DarkIndicator

namespace DarkIndicator

/-! ## Helper lemmas -/

theorem dateLe_iff (a b : Date) :
    dateLe a b = true ↔
      (a.year < b.year ∨ (a.year = b.year ∧
        (a.month < b.month ∨ (a.month = b.month ∧ a.day ≤ b.day)))) := by
  simp [dateLe]

theorem dateLe_refl (a : Date) : dateLe a a = true := by
  simp [dateLe_iff]

theorem dateLe_total (a b : Date) : dateLe a b = true ∨ dateLe b a = true := by
  simp only [dateLe_iff]
  omega

theorem dateLe_trans {a b c : Date} (h1 : dateLe a b = true)
    (h2 : dateLe b c = true) : dateLe a c = true := by
  simp only [dateLe_iff] at h1 h2 ⊢
  omega

theorem maxDate_eq_or (a b : Date) : maxDate a b = a ∨ maxDate a b = b := by
  unfold maxDate
  split
  · exact Or.inr rfl
  · exact Or.inl rfl

theorem dateLe_maxDate_left (a b : Date) : dateLe a (maxDate a b) = true := by
  unfold maxDate
  split
  · assumption
  · exact dateLe_refl a

theorem dateLe_maxDate_right (a b : Date) : dateLe b (maxDate a b) = true := by
  unfold maxDate
  split
  · exact dateLe_refl b
  · rcases dateLe_total a b with h | h
    · simp_all
    · exact h

theorem listMaxDate_mem (d : Date) (ds : List Date) :
    listMaxDate d ds = d ∨ listMaxDate d ds ∈ ds := by
  induction ds generalizing d with
  | nil => exact Or.inl rfl
  | cons x xs ih =>
    have hstep : listMaxDate d (x :: xs) = listMaxDate (maxDate d x) xs := rfl
    rw [hstep]
    rcases ih (maxDate d x) with h | h
    · rcases maxDate_eq_or d x with h2 | h2
      · exact Or.inl (h.trans h2)
      · exact Or.inr (by rw [h, h2]; exact List.mem_cons_self x xs)
    · exact Or.inr (List.mem_cons_of_mem x h)

theorem listMaxDate_ub (d : Date) (ds : List Date) :
    dateLe d (listMaxDate d ds) = true ∧
      ∀ x ∈ ds, dateLe x (listMaxDate d ds) = true := by
  induction ds generalizing d with
  | nil => exact ⟨dateLe_refl d, by simp⟩
  | cons y ys ih =>
    have hstep : listMaxDate d (y :: ys) = listMaxDate (maxDate d y) ys := rfl
    rw [hstep]
    obtain ⟨h1, h2⟩ := ih (maxDate d y)
    refine ⟨dateLe_trans (dateLe_maxDate_left d y) h1, ?_⟩
    intro x hx
    rcases List.mem_cons.mp hx with rfl | hx
    · exact dateLe_trans (dateLe_maxDate_right d x) h1
    · exact h2 x hx

theorem isValidDate_iff (y : Int) (m d : Nat) :
    isValidDate y m d = true ↔ (1 ≤ m ∧ m ≤ 12 ∧ 1 ≤ d ∧ d ≤ daysInMonth y m) := by
  simp [isValidDate, and_assoc]

theorem june30_valid (y : Int) : isValidDate y 6 30 = true := by
  rw [isValidDate_iff]
  norm_num [daysInMonth]

/-- Changing the year of a valid date can only break validity for Feb 29
moving into a non-leap year. -/
theorem invalid_year_change {y : Int} {m d : Nat} (y' : Int)
    (h : isValidDate y m d = true) :
    isValidDate y' m d = false ↔ (m = 2 ∧ d = 29 ∧ isLeap y' = false) := by
  rw [isValidDate_iff] at h
  rw [← Bool.not_eq_true, isValidDate_iff]
  by_cases hm : m = 2
  · subst hm
    have e1 : daysInMonth y 2 = if isLeap y then 29 else 28 := by simp [daysInMonth]
    have e2 : daysInMonth y' 2 = if isLeap y' then 29 else 28 := by simp [daysInMonth]
    rw [e1] at h
    rw [e2]
    cases hl : isLeap y' <;> cases hl0 : isLeap y <;>
      simp [hl, hl0] at h ⊢ <;> omega
  · have hd : daysInMonth y' m = daysInMonth y m := by
      simp [daysInMonth, hm]
    rw [hd]
    simp only [hm, false_and, iff_false, not_not]
    exact h

theorem lookup_append (k : String) (a b : List (String × Leaf)) :
    (a ++ b).lookup k = ((a.lookup k).orElse (fun _ => b.lookup k)) := by
  induction a with
  | nil => simp [List.lookup]
  | cons p ps ih =>
    obtain ⟨k0, v0⟩ := p
    by_cases hk : k = k0
    · simp [List.lookup, hk, Option.orElse]
    · have : (k == k0) = false := beq_false_of_ne hk
      simp [List.lookup, this, ih]

theorem getLastD_cons_mem (r : α) (rs : List α) : rs.getLastD r ∈ r :: rs := by
  induction rs generalizing r with
  | nil => simp [List.getLastD]
  | cons y ys ih =>
    rw [List.getLastD_cons]
    have h := ih y
    rcases List.mem_cons.mp h with h1 | h1
    · rw [h1]
      exact List.mem_cons_of_mem r (List.mem_cons_self y ys)
    · exact List.mem_cons_of_mem r (List.mem_cons_of_mem y h1)

/-- Either no debt-ratio entry, or exactly one with its guard satisfied. -/
theorem debtRatio_shape (l : List FinRecord) :
    debtRatioEntry l = [] ∨
      ∃ lv av, firstValue l "負債總額" = some lv ∧ firstValue l "資產總額" = some av ∧
        av ≠ 0 ∧ debtRatioEntry l = [("負債比率", .fmtPct (.q (lv / av * 100)) 1)] := by
  unfold debtRatioEntry
  rcases h1 : firstValue l "負債總額" with _ | lv
  · exact Or.inl rfl
  rcases h2 : firstValue l "資產總額" with _ | av
  · exact Or.inl rfl
  by_cases h3 : av = 0
  · simp [h3]
  · exact Or.inr ⟨lv, av, rfl, rfl, h3, by simp [h3]⟩

theorem currentRatio_shape (l : List FinRecord) :
    currentRatioEntry l = [] ∨
      ∃ ca cl, firstValue l "流動資產合計" = some ca ∧ firstValue l "流動負債合計" = some cl ∧
        cl ≠ 0 ∧ currentRatioEntry l = [("流動比率", .fmtNum (.q (ca / cl)) 2)] := by
  unfold currentRatioEntry
  rcases h1 : firstValue l "流動資產合計" with _ | ca
  · exact Or.inl rfl
  rcases h2 : firstValue l "流動負債合計" with _ | cl
  · exact Or.inl rfl
  by_cases h3 : cl = 0
  · simp [h3]
  · exact Or.inr ⟨ca, cl, rfl, rfl, h3, by simp [h3]⟩

theorem quickRatio_shape (l : List FinRecord) :
    quickRatioEntry l = [] ∨
      ∃ ca inv cl, firstValue l "流動資產合計" = some ca ∧ firstValue l "存貨" = some inv ∧
        firstValue l "流動負債合計" = some cl ∧ cl ≠ 0 ∧
        quickRatioEntry l = [("速動比率", .fmtNum (.q ((ca - inv) / cl)) 2)] := by
  unfold quickRatioEntry
  rcases h1 : firstValue l "流動資產合計" with _ | ca
  · exact Or.inl rfl
  rcases h2 : firstValue l "存貨" with _ | inv
  · exact Or.inl rfl
  rcases h3 : firstValue l "流動負債合計" with _ | cl
  · exact Or.inl rfl
  by_cases h4 : cl = 0
  · simp [h4]
  · exact Or.inr ⟨ca, inv, cl, rfl, rfl, rfl, h4, by simp [h4]⟩

theorem debt_lookup (lbs : List FinRecord) (x : Leaf) :
    (debtRatioEntry lbs).lookup "負債比率" = some x ↔
      ∃ lv av, firstValue lbs "負債總額" = some lv ∧
        firstValue lbs "資產總額" = some av ∧ av ≠ 0 ∧
        x = .fmtPct (.q (lv / av * 100)) 1 := by
  unfold debtRatioEntry
  rcases h1 : firstValue lbs "負債總額" with _ | lv
  · simp [h1, List.lookup]
  rcases h2 : firstValue lbs "資產總額" with _ | av
  · simp [h1, h2, List.lookup]
  by_cases h3 : av = 0
  · simp [h1, h2, h3, List.lookup]
  · simp [h1, h2, h3, List.lookup]
    exact eq_comm

theorem current_lookup (lbs : List FinRecord) (x : Leaf) :
    (currentRatioEntry lbs).lookup "流動比率" = some x ↔
      ∃ ca cl, firstValue lbs "流動資產合計" = some ca ∧
        firstValue lbs "流動負債合計" = some cl ∧ cl ≠ 0 ∧
        x = .fmtNum (.q (ca / cl)) 2 := by
  unfold currentRatioEntry
  rcases h1 : firstValue lbs "流動資產合計" with _ | ca
  · simp [h1, List.lookup]
  rcases h2 : firstValue lbs "流動負債合計" with _ | cl
  · simp [h1, h2, List.lookup]
  by_cases h3 : cl = 0
  · simp [h1, h2, h3, List.lookup]
  · simp [h1, h2, h3, List.lookup]
    exact eq_comm

theorem quick_lookup (lbs : List FinRecord) (x : Leaf) :
    (quickRatioEntry lbs).lookup "速動比率" = some x ↔
      ∃ ca inv cl, firstValue lbs "流動資產合計" = some ca ∧
        firstValue lbs "存貨" = some inv ∧
        firstValue lbs "流動負債合計" = some cl ∧ cl ≠ 0 ∧
        x = .fmtNum (.q ((ca - inv) / cl)) 2 := by
  unfold quickRatioEntry
  rcases h1 : firstValue lbs "流動資產合計" with _ | ca
  · simp [h1, List.lookup]
  rcases h2 : firstValue lbs "存貨" with _ | inv
  · simp [h1, h2, List.lookup]
  rcases h3 : firstValue lbs "流動負債合計" with _ | cl
  · simp [h1, h2, h3, List.lookup]
  by_cases h4 : cl = 0
  · simp [h1, h2, h3, h4, List.lookup]
  · simp [h1, h2, h3, h4, List.lookup]
    exact eq_comm

theorem debt_lookup_other (lbs : List FinRecord) (k : String)
    (hk : k ≠ "負債比率") : (debtRatioEntry lbs).lookup k = none := by
  rcases debtRatio_shape lbs with h | ⟨lv, av, _, _, _, h⟩ <;>
    simp [h, List.lookup, beq_false_of_ne hk]

theorem current_lookup_other (lbs : List FinRecord) (k : String)
    (hk : k ≠ "流動比率") : (currentRatioEntry lbs).lookup k = none := by
  rcases currentRatio_shape lbs with h | ⟨ca, cl, _, _, _, h⟩ <;>
    simp [h, List.lookup, beq_false_of_ne hk]

theorem quick_lookup_other (lbs : List FinRecord) (k : String)
    (hk : k ≠ "速動比率") : (quickRatioEntry lbs).lookup k = none := by
  rcases quickRatio_shape lbs with h | ⟨ca, inv, cl, _, _, _, _, h⟩ <;>
    simp [h, List.lookup, beq_false_of_ne hk]

/-- `margin_df.iloc[-1].get('MarginPurchaseLimit', 0)` only ever produces a
number (the row value or the default 0) or `NaN` (a row-level hole), never an
infinity. -/
theorem pdGetLim_cases (ml : List MarginRec) (latest : MarginRec) :
    (∃ v, pdGetLim ml latest = .q v) ∨ pdGetLim ml latest = .nan := by
  unfold pdGetLim
  split
  · cases latest.limit
    · exact Or.inr rfl
    · exact Or.inl ⟨_, rfl⟩
  · exact Or.inl ⟨0, rfl⟩

theorem bsRatio_lookup_split (lbs : List FinRecord) (k : String) :
    (bsRatioEntries lbs).lookup k =
      (((debtRatioEntry lbs).lookup k).orElse (fun _ =>
        (((currentRatioEntry lbs).lookup k).orElse (fun _ =>
          (quickRatioEntry lbs).lookup k)))) := by
  rw [bsRatioEntries, lookup_append, lookup_append]

/-! ## Claim theorems -/

/-- C1: the claim asserts the uniform YoY policy — growth `(c − p)/abs(p)×100`
only when both values exist and `p ≠ 0`, sentinel `"去年同期為0"` when
`p == 0`, never a number in a sentinel case — also on the monthly-revenue
path.  The code's monthly path (app.py line 400) instead divides by the
signed prior value with no zero guard: on a batch whose prior-year same-month
revenue is `0`, numpy silently produces `inf` (the warning is filtered at
line 11) and the program emits `營收年增率 = "inf%"` — a rendered number,
not the sentinel the claim requires.  This theorem evaluates the monthly
section at such a failing batch. -/
theorem claim_C1_monthly_yoy_not_sentinel :
    section3F rawC1 =
      [("月營收指標", Entry.map
        [("最新月份", .s "2024-07"),
         ("最新月營收", .moneyB (.q 250)),
         ("去年同月營收", .moneyB (.q 0)),
         ("營收年增率", .fmtPct .inf 1)])] ∧
    Leaf.fmtPct .inf 1 ≠ Leaf.s "去年同期為0" := by
  constructor
  · norm_num [rawC1, section3F, monthlyPriorMatches, fmtYM, pad2, pyMulC, npDiv,
      List.getLastD]
    rfl
  · decide

/-- C2 (spec-modelled; no Warning Rule Engine / Risk Scorer exists in src/):
`warning_ratio = triggered/total × 100` with `0` for `total == 0`, and the
risk buckets are inclusive on their lower bounds: `ratio ≥ 40 → "high"`,
`40 > ratio ≥ 20 → "medium"`, `ratio < 20 → "low"`; in particular `20.0` is
medium, `40.0` is high, `19.999` is low. -/
theorem claim_C2_risk_scorer (t n : Nat) (r : ℚ) :
    warningRatio t 0 = 0 ∧
    warningRatio t (n + 1) = (t : ℚ) / ((n : ℚ) + 1) * 100 ∧
    (riskLevel r = "high" ↔ 40 ≤ r) ∧
    (riskLevel r = "medium" ↔ 20 ≤ r ∧ r < 40) ∧
    (riskLevel r = "low" ↔ r < 20) ∧
    riskLevel 20 = "medium" ∧ riskLevel 40 = "high" ∧
    riskLevel (19999 / 1000) = "low" := by
  refine ⟨by simp [warningRatio], ?_, ?_, ?_, ?_, ?_, ?_, ?_⟩
  · simp [warningRatio]
  · unfold riskLevel
    split_ifs with h1 h2
    · exact iff_of_true rfl h1
    · exact iff_of_false (by decide) h1
    · exact iff_of_false (by decide) h1
  · unfold riskLevel
    split_ifs with h1 h2
    · exact iff_of_false (by decide) (fun hc => absurd h1 (not_le.mpr hc.2))
    · exact iff_of_true rfl ⟨h2, not_le.mp h1⟩
    · exact iff_of_false (by decide) (fun hc => h2 hc.1)
  · unfold riskLevel
    split_ifs with h1 h2
    · exact iff_of_false (by decide) (fun hc => by linarith)
    · exact iff_of_false (by decide) (fun hc => by linarith)
    · exact iff_of_true rfl (not_le.mp h2)
  · norm_num [riskLevel]
  · norm_num [riskLevel]
  · norm_num [riskLevel]

/-- C4: for any nonempty statement-level series of valid dates, the aligner
takes the maximum date `L`, and `priorYearTarget L` is `L` with year
decremented when that is a real date; otherwise (exactly the case `L` is a
Feb 29 whose preceding year is not leap) it is June 30 of the decremented
year; the result is always a valid date, so the computation never raises. -/
theorem claim_C4_period_aligner (d0 : Date) (ds : List Date)
    (hv : ∀ x ∈ d0 :: ds, isValidDate x.year x.month x.day = true) :
    listMaxDate d0 ds ∈ d0 :: ds ∧
    (∀ x ∈ d0 :: ds, dateLe x (listMaxDate d0 ds) = true) ∧
    (priorYearTarget (listMaxDate d0 ds)).year = (listMaxDate d0 ds).year - 1 ∧
    (isValidDate ((listMaxDate d0 ds).year - 1) (listMaxDate d0 ds).month
        (listMaxDate d0 ds).day = true →
      priorYearTarget (listMaxDate d0 ds) =
        ⟨(listMaxDate d0 ds).year - 1, (listMaxDate d0 ds).month,
          (listMaxDate d0 ds).day⟩) ∧
    (isValidDate ((listMaxDate d0 ds).year - 1) (listMaxDate d0 ds).month
        (listMaxDate d0 ds).day = false →
      ((listMaxDate d0 ds).month = 2 ∧ (listMaxDate d0 ds).day = 29 ∧
        isLeap ((listMaxDate d0 ds).year - 1) = false) ∧
      priorYearTarget (listMaxDate d0 ds) = ⟨(listMaxDate d0 ds).year - 1, 6, 30⟩) ∧
    isValidDate (priorYearTarget (listMaxDate d0 ds)).year
      (priorYearTarget (listMaxDate d0 ds)).month
      (priorYearTarget (listMaxDate d0 ds)).day = true := by
  set L := listMaxDate d0 ds with hL
  have hmem : L ∈ d0 :: ds := by
    rcases listMaxDate_mem d0 ds with h | h
    · rw [hL, h]
      exact List.mem_cons_self d0 ds
    · exact List.mem_cons_of_mem d0 h
  have hub : ∀ x ∈ d0 :: ds, dateLe x L = true := by
    intro x hx
    obtain ⟨h1, h2⟩ := listMaxDate_ub d0 ds
    rcases List.mem_cons.mp hx with rfl | hx
    · exact h1
    · exact h2 x hx
  have hLv : isValidDate L.year L.month L.day = true := hv L hmem
  refine ⟨hmem, hub, ?_, ?_, ?_, ?_⟩
  · unfold priorYearTarget
    split <;> rfl
  · intro h
    simp [priorYearTarget, h]
  · intro h
    refine ⟨(invalid_year_change (L.year - 1) hLv).mp h, ?_⟩
    simp [priorYearTarget, h]
  · by_cases h : isValidDate (L.year - 1) L.month L.day = true
    · simp [priorYearTarget, h]
    · rw [Bool.not_eq_true] at h
      simp [priorYearTarget, h, june30_valid]

/-- C4 witness: a series whose maximum is 2024-02-29; 2023 is not leap, so
alignment falls back to 2023-06-30. -/
theorem claim_C4_period_aligner_w :
    priorYearTarget (listMaxDate ⟨2024, 2, 29⟩ [⟨2023, 8, 14⟩]) = ⟨2023, 6, 30⟩ :=
  ((claim_C4_period_aligner ⟨2024, 2, 29⟩ [⟨2023, 8, 14⟩]
    (by decide)).2.2.2.2.1 (by decide)).2

/-- C7: the monthly-revenue prior-year lookup matches by (year − 1, same
month) against the latest record (`revenue_df.iloc[-1]`), not by exact date:
a record is in the comparison set exactly when it is in the series, its year
is the latest record's year minus one, and its month equals the latest
record's month. -/
theorem claim_C7_monthly_alignment (r0 : RevRecord) (rs : List RevRecord)
    (r : RevRecord) :
    r ∈ monthlyPriorMatches (r0 :: rs) ((r0 :: rs).getLastD r0) ↔
      (r ∈ r0 :: rs ∧
        r.date.year = ((r0 :: rs).getLastD r0).date.year - 1 ∧
        r.date.month = ((r0 :: rs).getLastD r0).date.month) := by
  simp [monthlyPriorMatches, List.mem_filter, and_assoc]

/-- C3 counterexample: the profile dataset answered but contains no record
for the requested code "9999"; far from aborting with a named failure, the
pipeline returns `success = True`, notes `"找不到該股票"` in the availability
map, and still produces a (nonempty) indicator map. -/
theorem claim_C3_cex :
    (collectAllData "9999" "T0" batchesC3).success = true ∧
    ((collectAllData "9999" "T0" batchesC3).data_availability).lookup "基本資料區" =
      some "找不到該股票" ∧
    (collectAllData "9999" "T0" batchesC3).calculated_indicators ≠ [] := by
  refine ⟨rfl, by decide, by decide⟩

/-- C3 amended: when the requested stock code has no profile record the
pipeline does not abort — it records `"找不到該股票"` under `基本資料區`,
leaves `basic_info` unset, and proceeds to a full `success = True` result;
indeed no data-absence condition ever aborts (`success` is always `True`). -/
theorem claim_C3_no_abort (code now : String) (b : Batches) (l : List BasicInfo)
    (hb : truthy b.basic = some l) (hnone : stockMatches code l = []) :
    (collectAllData code now b).success = true ∧
    ((collectAllData code now b).data_availability).lookup "基本資料區" =
      some "找不到該股票" ∧
    (collectAllData code now b).raw_data.basic_info = none ∧
    (∀ code2 now2 : String, ∀ b2 : Batches,
      (collectAllData code2 now2 b2).success = true) := by
  refine ⟨rfl, ?_, ?_, fun _ _ _ => rfl⟩
  · simp [collectAllData, availabilityList, hb, hnone, List.lookup]
  · simp [collectAllData, buildRawData, hb, hnone]

/-- C3 witness: the amended behavior at the concrete unknown code. -/
theorem claim_C3_no_abort_w :
    (collectAllData "9999" "T1" batchesC3).raw_data.basic_info = none :=
  (claim_C3_no_abort "9999" "T1" batchesC3
    [⟨some "2330", some "台積電", some "半導體", some "twse"⟩]
    (by rfl) (by rfl)).2.2.1

/-- C5: each derived ratio is present exactly under its guard — debt ratio
iff total liabilities and total assets are present with assets ≠ 0, current
ratio iff current assets/liabilities present with liabilities ≠ 0, quick
ratio iff those plus inventory present, operating and gross margin iff a
non-zero revenue row and the numerator row exist — and the margin usage rate
is either the explicit `"無法計算"` marker or the percentage with a positive
numeric limit in the denominator; absence or zero of a denominator never
yields a number. -/
theorem claim_C5_ratio_guards :
    (∀ (lbs : List FinRecord) (x : Leaf),
      (bsRatioEntries lbs).lookup "負債比率" = some x ↔
        ∃ lv av, firstValue lbs "負債總額" = some lv ∧
          firstValue lbs "資產總額" = some av ∧ av ≠ 0 ∧
          x = .fmtPct (.q (lv / av * 100)) 1) ∧
    (∀ (lbs : List FinRecord) (x : Leaf),
      (bsRatioEntries lbs).lookup "流動比率" = some x ↔
        ∃ ca cl, firstValue lbs "流動資產合計" = some ca ∧
          firstValue lbs "流動負債合計" = some cl ∧ cl ≠ 0 ∧
          x = .fmtNum (.q (ca / cl)) 2) ∧
    (∀ (lbs : List FinRecord) (x : Leaf),
      (bsRatioEntries lbs).lookup "速動比率" = some x ↔
        ∃ ca inv cl, firstValue lbs "流動資產合計" = some ca ∧
          firstValue lbs "存貨" = some inv ∧
          firstValue lbs "流動負債合計" = some cl ∧ cl ≠ 0 ∧
          x = .fmtNum (.q ((ca - inv) / cl)) 2) ∧
    (∀ (lf : List FinRecord) (y : Entry),
      (finRatioEntries lf).lookup "營業利益率%" = some y ↔
        ∃ rv op, firstValue lf "營業收入" = some rv ∧ rv ≠ 0 ∧
          firstValue lf "營業利益（損失）" = some op ∧
          y = Entry.leaf (.fmtPct (.q (op / rv * 100)) 1)) ∧
    (∀ (lf : List FinRecord) (y : Entry),
      (finRatioEntries lf).lookup "毛利率%" = some y ↔
        ∃ rv g, firstValue lf "營業收入" = some rv ∧ rv ≠ 0 ∧
          firstValue lf "營業毛利（毛損）" = some g ∧
          y = Entry.leaf (.fmtPct (.q (g / rv * 100)) 1)) ∧
    (∀ (ml : List MarginRec) (latest : MarginRec),
      usageLeaf ml latest = .s "無法計算" ∨
        ∃ L, pdGetLim ml latest = .q L ∧ 0 < L ∧
          usageLeaf ml latest =
            .fmtPct (pyMulC (pyDiv (pdGetBal ml latest) (pdGetLim ml latest)) 100) 2) ∧
    (∀ (ml : List MarginRec) (latest : MarginRec),
      usageLeaf ml latest = .s "無法計算" ↔
        pyGTzero (pdGetLim ml latest) = false) := by
  refine ⟨?_, ?_, ?_, ?_, ?_, ?_, ?_⟩
  · intro lbs x
    rw [bsRatio_lookup_split, current_lookup_other lbs _ (by decide),
      quick_lookup_other lbs _ (by decide)]
    rcases hd : (debtRatioEntry lbs).lookup "負債比率" with _ | v
    · simp only [Option.orElse, Option.none_orElse]
      rw [← debt_lookup lbs x, hd]
    · simp only [Option.orElse, Option.some_orElse]
      rw [← debt_lookup lbs x, hd]
  · intro lbs x
    rw [bsRatio_lookup_split, debt_lookup_other lbs _ (by decide),
      quick_lookup_other lbs _ (by decide)]
    rcases hc : (currentRatioEntry lbs).lookup "流動比率" with _ | v
    · simp only [Option.orElse, Option.none_orElse]
      rw [← current_lookup lbs x, hc]
    · simp only [Option.orElse, Option.none_orElse, Option.some_orElse]
      rw [← current_lookup lbs x, hc]
  · intro lbs x
    rw [bsRatio_lookup_split, debt_lookup_other lbs _ (by decide),
      current_lookup_other lbs _ (by decide)]
    simp only [Option.orElse, Option.none_orElse]
    exact quick_lookup lbs x
  · intro lf y
    unfold finRatioEntries
    rcases h1 : firstValue lf "營業收入" with _ | rv
    · simp [h1, List.lookup]
    by_cases h2 : rv = 0
    · simp [h1, h2, List.lookup]
    rcases h3 : firstValue lf "營業利益（損失）" with _ | op <;>
      rcases h4 : firstValue lf "營業毛利（毛損）" with _ | g <;>
        simp [h1, h2, h3, h4, List.lookup, eq_comm]
  · intro lf y
    unfold finRatioEntries
    rcases h1 : firstValue lf "營業收入" with _ | rv
    · simp [h1, List.lookup]
    by_cases h2 : rv = 0
    · simp [h1, h2, List.lookup]
    rcases h3 : firstValue lf "營業利益（損失）" with _ | op <;>
      rcases h4 : firstValue lf "營業毛利（毛損）" with _ | g <;>
        simp [h1, h2, h3, h4, List.lookup, eq_comm]
  · intro ml latest
    by_cases hg : pyGTzero (pdGetLim ml latest) = true
    · rcases pdGetLim_cases ml latest with ⟨L, hL⟩ | hL
      · rw [hL] at hg
        have hpos : 0 < L := by simpa [pyGTzero] using hg
        refine Or.inr ⟨L, hL, hpos, ?_⟩
        simp [usageLeaf, hL, pyGTzero, hpos]
      · rw [hL] at hg
        simp [pyGTzero] at hg
    · rw [Bool.not_eq_true] at hg
      exact Or.inl (by simp [usageLeaf, hg])
  · intro ml latest
    unfold usageLeaf
    cases hg : pyGTzero (pdGetLim ml latest) <;> simp [hg]

/-- C6 counterexample: the result embeds `datetime.now().isoformat()`
(app.py line 177), so two runs on identical batches at different wall-clock
times are not byte-identical. -/
theorem claim_C6_cex :
    collectAllData "2330" "2026-01-01T00:00:00" emptyBatches ≠
      collectAllData "2330" "2026-01-01T00:00:01" emptyBatches := by
  decide

/-- C6 amended: the pipeline is deterministic over its input up to the
`timestamp` field — every other field of the result agrees across runs at
different times, and `timestamp` is exactly the wall-clock instant of the
run. -/
theorem claim_C6_deterministic_mod_timestamp (code t1 t2 : String) (b : Batches) :
    (collectAllData code t1 b).success = (collectAllData code t2 b).success ∧
    (collectAllData code t1 b).stock_code = (collectAllData code t2 b).stock_code ∧
    (collectAllData code t1 b).data_availability =
      (collectAllData code t2 b).data_availability ∧
    (collectAllData code t1 b).raw_data = (collectAllData code t2 b).raw_data ∧
    (collectAllData code t1 b).calculated_indicators =
      (collectAllData code t2 b).calculated_indicators ∧
    (collectAllData code t1 b).timestamp = t1 :=
  ⟨rfl, rfl, rfl, rfl, rfl, rfl⟩

/-- C8: a stock code shorter than 4 characters makes both data routes return
HTTP 400 with a `success = false` body, and the response is independent of
the fetched data (data collection is never consulted). -/
theorem claim_C8_short_code_rejected (code now : String) (b : Batches)
    (h : code.length < 4) :
    getDarkIndicators code now b = (400, RouteBody.badRequest false "無效的股票代碼") ∧
    getRawData code now b = (400, RouteBody.badRequest false "無效的股票代碼") ∧
    (∀ now2 : String, ∀ b2 : Batches,
      getDarkIndicators code now b = getDarkIndicators code now2 b2 ∧
      getRawData code now b = getRawData code now2 b2) := by
  have hg : code = "" ∨ code.length < 4 := Or.inr h
  refine ⟨?_, ?_, ?_⟩
  · unfold getDarkIndicators
    rw [if_pos hg]
  · unfold getRawData
    rw [if_pos hg]
  · intro now2 b2
    constructor
    · unfold getDarkIndicators
      rw [if_pos hg, if_pos hg]
    · unfold getRawData
      rw [if_pos hg, if_pos hg]

/-- C8 witness: the two-character code "23" is rejected. -/
theorem claim_C8_short_code_rejected_w :
    getDarkIndicators "23" "T0" emptyBatches =
      (400, RouteBody.badRequest false "無效的股票代碼") :=
  (claim_C8_short_code_rejected "23" "T0" emptyBatches (by decide)).1

/-- C9: a fault in any calculator section leaves `success = True`, stores
`str(e)` under `計算錯誤`, keeps every section finished before the fault and
silently drops every later section: the result is exactly the accumulated
prefix plus the error entry.  The realizable faults are the `KeyError('date')`
reads of sections 2, 4 and 5 on an empty statement frame (the monthly YoY
division does not fault — numpy yields `inf` silently). -/
theorem claim_C9_fault_partial_result (raw : RawData) :
    (∀ e, section2F raw = .error e →
      calculateBasicIndicators raw = section1F raw ++ calcErrEntry e) ∧
    (∀ m2 e, section2F raw = .ok m2 → section4F raw = .error e →
      calculateBasicIndicators raw =
        section1F raw ++ m2 ++ section3F raw ++ calcErrEntry e) ∧
    (∀ m2 m4 e, section2F raw = .ok m2 → section4F raw = .ok m4 →
      section5F raw = .error e →
      calculateBasicIndicators raw =
        section1F raw ++ m2 ++ section3F raw ++ m4 ++ calcErrEntry e) ∧
    (∀ code now : String, ∀ b : Batches,
      (collectAllData code now b).success = true ∧
      (collectAllData code now b).calculated_indicators =
        calculateBasicIndicators (buildRawData code b)) := by
  refine ⟨?_, ?_, ?_, fun _ _ _ => ⟨rfl, rfl⟩⟩
  · intro e h2
    simp [calculateBasicIndicators, h2]
  · intro m2 e h2 h4
    simp [calculateBasicIndicators, h2, h4]
  · intro m2 m4 e h2 h4 h5
    simp [calculateBasicIndicators, h2, h4, h5]

/-- C9 witness: on `rawC9` the financial section reads `['date']` off an
empty frame and raises `KeyError('date')`; the profile section before it
survives, the cash-flow section (whose data is present) is dropped, and
`str(e)` (`'date'` with quotes) lands under `計算錯誤`. -/
theorem claim_C9_fault_partial_result_w :
    calculateBasicIndicators rawC9 =
      section1F rawC9 ++ calcErrEntry "\x27date\x27" :=
  (claim_C9_fault_partial_result rawC9).1 "\x27date\x27" (by rfl)

/-- C10 counterexample: in a batch whose latest margin row lacks
`MarginPurchaseTodayBalance` while an earlier row has it, pandas reads `NaN`
(not the claimed default `0`), so with a positive limit the usage rate is
rendered `"nan%"` — neither the claimed `"0.00%"` nor `"無法計算"`. -/
theorem claim_C10_cex :
    marginEntries raggedMargin =
      [("融資餘額", .fmtComma .nan), ("融資限額", .fmtComma (.q 100)),
       ("融資使用率", .fmtPct .nan 2)] ∧
    Leaf.fmtPct .nan 2 ≠ Leaf.fmtPct (.q 0) 2 ∧
    Leaf.fmtPct .nan 2 ≠ Leaf.s "無法計算" := by
  refine ⟨?_, by decide, by decide⟩
  norm_num [raggedMargin, marginEntries, pdGetBal, pdGetLim, usageLeaf,
    hasBalCol, hasLimCol, pyGTzero, pyDiv, pyMulC, List.getLastD]

/-- C10 amended: the 0 default applies when a field is absent from every
record of the batch (the frame then has no such column); a field present in
the latest row is read as-is; with the balance column absent entirely and a
positive latest limit the usage rate is the numeric `"0.00%"`; and the
`"無法計算"` marker appears exactly when the effective limit fails the
`> 0` test (defaulted 0, zero, negative, or `NaN` from a row-level hole). -/
theorem claim_C10_margin_defaults (r : MarginRec) (rs : List MarginRec) :
    (usageLeaf (r :: rs) ((r :: rs).getLastD r) = .s "無法計算" ↔
      pyGTzero (pdGetLim (r :: rs) ((r :: rs).getLastD r)) = false) ∧
    ((∀ m ∈ r :: rs, m.limit = none) →
      pdGetLim (r :: rs) ((r :: rs).getLastD r) = .q 0) ∧
    (∀ v, ((r :: rs).getLastD r).limit = some v →
      pdGetLim (r :: rs) ((r :: rs).getLastD r) = .q v) ∧
    ((∀ m ∈ r :: rs, m.balance = none) →
      ∀ L, ((r :: rs).getLastD r).limit = some L → 0 < L →
        usageLeaf (r :: rs) ((r :: rs).getLastD r) = .fmtPct (.q 0) 2) ∧
    marginEntries (r :: rs) =
      [("融資餘額", .fmtComma (pdGetBal (r :: rs) ((r :: rs).getLastD r))),
       ("融資限額", .fmtComma (pdGetLim (r :: rs) ((r :: rs).getLastD r))),
       ("融資使用率", usageLeaf (r :: rs) ((r :: rs).getLastD r))] := by
  set latest := (r :: rs).getLastD r with hlat
  have hmem : latest ∈ r :: rs := by
    rw [hlat, List.getLastD_cons]
    exact getLastD_cons_mem r rs
  have hlimAll : (∀ m ∈ r :: rs, m.limit = none) →
      pdGetLim (r :: rs) latest = .q 0 := by
    intro h
    have hcol : hasLimCol (r :: rs) = false := by
      simp only [hasLimCol, List.any_eq_false]
      intro m hm
      simp [h m hm]
    simp [pdGetLim, hcol]
  have hlimSome : ∀ v, latest.limit = some v →
      pdGetLim (r :: rs) latest = .q v := by
    intro v hv
    have hcol : hasLimCol (r :: rs) = true := by
      simp only [hasLimCol, List.any_eq_true]
      exact ⟨latest, hmem, by simp [hv]⟩
    simp [pdGetLim, hcol, hv]
  refine ⟨?_, hlimAll, hlimSome, ?_, rfl⟩
  · unfold usageLeaf
    cases hg : pyGTzero (pdGetLim (r :: rs) latest) <;> simp [hg]
  · intro hb L hL hpos
    have hbal : pdGetBal (r :: rs) latest = .q 0 := by
      have hcol : hasBalCol (r :: rs) = false := by
        simp only [hasBalCol, List.any_eq_false]
        intro m hm
        simp [hb m hm]
      simp [pdGetBal, hcol]
    have hlim := hlimSome L hL
    have hLne : L ≠ 0 := hpos.ne'
    rw [usageLeaf, hlim, hbal]
    have hgt : pyGTzero (PyNum.q L) = true := by
      simp [pyGTzero, hpos]
    rw [hgt]
    simp [pyDiv, npDiv, pyMulC, hLne]

/-- C10 witness: a one-row batch with no balance key anywhere and limit 50
reports usage `0.00%`. -/
theorem claim_C10_margin_defaults_w :
    usageLeaf [⟨none, some 50⟩]
      (([⟨none, some 50⟩] : List MarginRec).getLastD ⟨none, some 50⟩) =
      .fmtPct (.q 0) 2 :=
  (claim_C10_margin_defaults ⟨none, some 50⟩ []).2.2.2.1
    (by decide) 50 (by rfl) (by norm_num)

end DarkIndicator
